import Mathlib

/-!
Verification development for the image-to-text capture utility
(source file src/_utils.py).  Python strings are modelled as
lists of characters; the external world (PDF parser, OCR engine,
screenshot device, filesystem, clipboard) is modelled by explicit
oracle parameters.  Machine state that the Python code keeps in
module-level globals is modelled as an explicit state record.
-/

namespace ImageToText

/-- A log line, as produced by the logging calls in the source.  Only the
levels and the fixed message texts matter to the properties below, so the
dynamic parts of the messages are dropped. -/
inductive LogEntry where
  | info (msg : String)
  | warning (msg : String)
  | error (msg : String)
  deriving DecidableEq

/-- True on the characters Python's str.splitlines treats as line
boundaries (the source splits extracted PDF text with splitlines). -/
def isLineBreak (c : Char) : Bool :=
  c = '\n' || c = '\r' || c = '\x0b' || c = '\x0c' ||
  c = '\x1c' || c = '\x1d' || c = '\x1e' || c = '\x85' ||
  c = '\u2028' || c = '\u2029'

/-- Accumulator-based core of Python's str.splitlines: a '\r' immediately
followed by '\n' counts as a single boundary, a trailing boundaryless
segment is emitted only when nonempty. -/
def splitlinesAux : List Char → List Char → List (List Char)
  | [], acc => if acc.isEmpty then [] else [acc.reverse]
  | c :: rest, acc =>
    if isLineBreak c then
      acc.reverse ::
        splitlinesAux (if c = '\r' ∧ rest.head? = some '\n' then rest.tail else rest) []
    else
      splitlinesAux rest (c :: acc)
termination_by s _ => s.length
decreasing_by
  all_goals simp only [List.length_cons]
  · split <;> (simp [List.length_tail]; try omega)
  · omega

/-- Python's str.splitlines on a string modelled as a character list. -/
def splitlines (s : List Char) : List (List Char) :=
  splitlinesAux s []

/-- Python's sep.join on a list of strings. -/
def pyJoin (sep : List Char) : List (List Char) → List Char
  | [] => []
  | [x] => x
  | x :: y :: t => x ++ sep ++ pyJoin sep (y :: t)

/-- Accumulator-based core of Python's str.split with a one-character
separator; always returns at least one (possibly empty) segment. -/
def pySplitAux (sep : Char) : List Char → List Char → List (List Char)
  | [], acc => [acc.reverse]
  | c :: rest, acc =>
    if c = sep then acc.reverse :: pySplitAux sep rest []
    else pySplitAux sep rest (c :: acc)

/-- Python's str.split with a one-character separator. -/
def pySplit (sep : Char) (s : List Char) : List (List Char) :=
  pySplitAux sep s []

/-- Python's str.lower, restricted to the ASCII case mapping (the only
case mapping relevant to the extension allow-list). -/
def pyLower (s : List Char) : List Char :=
  s.map Char.toLower

/-- Oracle for the external capabilities consulted during extraction:
fitz.open followed by per-page get_text (none models an open or parse
failure), and PIL Image.open followed by pytesseract OCR (none models a
decode or OCR failure). -/
structure World where
  pdfDoc : List Char → Option (List (List Char))
  ocr : List Char → Option (List Char)

/-- PDFProcessing.extract from the source: open the document, concatenate
the text of every page in page order, optionally keep only the lines whose
length exceeds 20 joined by newlines; on an open or parse failure log an
error and return the empty string.  Returns the extracted text together
with the log lines written. -/
def PDFProcessing.extract (w : World) (pdf_path : List Char) (filter : Bool) :
    List Char × List LogEntry :=
  match w.pdfDoc pdf_path with
  | none => ([], [LogEntry.error "Failed to extract text from PDF"])
  | some pages =>
    let text := pages.foldl (fun acc page => acc ++ page) []
    if filter then
      let lines := splitlines text
      let filtered_text := pyJoin ['\n'] (lines.filter (fun line => 20 < line.length))
      (filtered_text, [])
    else
      (text, [])

/-- ImageProcessing.extract from the source: OCR the image; on a decode
or OCR failure log an error and return the empty string. -/
def ImageProcessing.extract (w : World) (image_path : List Char) :
    List Char × List LogEntry :=
  match w.ocr image_path with
  | none => ([], [LogEntry.error "Failed to extract text from image"])
  | some text => (text, [])

/-- The extension allow-list from the source. -/
def VALID_FILE_EXTENTIONS : List (List Char) :=
  ["pdf".data, "jpg".data, "png".data, "jpeg".data, "tiff".data, "bmp".data]

/-- The raster-image members of the allow-list (every allow-listed
extension other than the document one). -/
def rasterExtensions : List (List Char) :=
  ["jpg".data, "png".data, "jpeg".data, "tiff".data, "bmp".data]

/-- The extension computed by Extract.extract from the source:
the last split('.') segment of the path, lowercased. -/
def fileExtension (file_path : List Char) : List Char :=
  pyLower ((pySplit '.' file_path).getLastD [])

/-- Extract.extract from the source: dispatch on the lowercased last
split('.') segment; an extension outside the allow-list raises ValueError
(modelled as Except.error); the document branch and the image branch each
return the extracted text when it is nonempty and the empty string
otherwise. -/
def Extract.extract (w : World) (file_path : List Char) :
    Except (List Char) (List Char) :=
  let file_extension := fileExtension file_path
  if file_extension ∉ VALID_FILE_EXTENTIONS then
    Except.error ("Unsupported file type: ".data ++ file_extension)
  else if file_extension = "pdf".data then
    let extracted_text := (PDFProcessing.extract w file_path false).1
    if extracted_text ≠ [] then Except.ok extracted_text else Except.ok []
  else if file_extension ∈ VALID_FILE_EXTENTIONS then
    let extracted_text := (ImageProcessing.extract w file_path).1
    if extracted_text ≠ [] then Except.ok extracted_text else Except.ok []
  else
    Except.ok []

/-- save_to_txt from the source, with the output file modelled by its
prior contents (none when the file does not exist yet): a nonempty text
overwrites the file and logs an info line; an empty text leaves the file
untouched and logs a warning. -/
def save_to_txt (text : List Char) (file : Option (List Char)) :
    Option (List Char) × List LogEntry :=
  if text ≠ [] then
    (some text, [LogEntry.info "Text saved to file"])
  else
    (file, [LogEntry.warning "No text to save to file."])

/-- save_to_clipboard from the source, with the clipboard modelled by its
current contents: a nonempty text replaces the clipboard and logs an info
line; an empty text leaves the clipboard untouched and logs a warning. -/
def save_to_clipboard (text : List Char) (clipboard : List Char) :
    List Char × List LogEntry :=
  if text ≠ [] then
    (text, [LogEntry.info "Text copied to clipboard."])
  else
    (clipboard, [LogEntry.warning "No text to copy to clipboard."])

/-- Oracle for the effectful steps of capture_screenshot: the os.makedirs
call (which the source performs before entering its try block), the
pyautogui screenshot-and-save of a given region, and the world consulted
by the extraction that follows. -/
structure CaptureEnv where
  makedirs : Except (List Char) Unit
  screenshot : Int → Int → Int → Int → Except (List Char) Unit
  world : World

/-- capture_screenshot from the source.  Except.error models an exception
escaping to the caller; Except.ok carries the resulting clipboard contents
and the log lines written.  The makedirs call precedes the try block, so
its failure propagates; every failure inside the try block (screenshot,
save, extraction including the ValueError for an unsupported extension,
clipboard copy path) is caught by the bare except and logged. -/
def capture_screenshot (env : CaptureEnv) (left top width height : Int)
    (output_filename : List Char) (clipboard : List Char) :
    Except (List Char) (List Char × List LogEntry) :=
  match env.makedirs with
  | Except.error e => Except.error e
  | Except.ok _ =>
    match env.screenshot left top width height with
    | Except.error _ => Except.ok (clipboard, [LogEntry.error "Error capturing screenshot"])
    | Except.ok _ =>
      match Extract.extract env.world output_filename with
      | Except.error _ =>
        Except.ok (clipboard,
          [LogEntry.info "Screenshot saved", LogEntry.error "Error capturing screenshot"])
      | Except.ok text =>
        if text ≠ [] then
          let r := save_to_clipboard text clipboard
          Except.ok (r.1,
            LogEntry.info "Screenshot saved" :: r.2 ++ [LogEntry.info "Text saved to clipboard"])
        else
          Except.ok (clipboard,
            [LogEntry.info "Screenshot saved", LogEntry.error "No text extracted"])

/-- Mouse buttons, as compared against mouse.Button.left in the source. -/
inductive Button where
  | left
  | right
  | middle
  deriving DecidableEq

/-- The module-level globals of the source: start_pos, end_pos,
screenshot_taken, and the armed flag (called macro_triggered in the
source; renamed here to triggered). -/
structure MacroState where
  start_pos : Option (Int × Int)
  end_pos : Option (Int × Int)
  screenshot_taken : Bool
  triggered : Bool
  deriving DecidableEq

/-- One mouse event as delivered to on_click. -/
structure ClickEvent where
  x : Int
  y : Int
  button : Button
  pressed : Bool
  deriving DecidableEq

/-- on_click from the source, as a state transition that also reports the
capture_screenshot invocation it makes, if any, as (left, top, width,
height).  Ignores everything while not armed; a left press records the
start point; a left release records the end point and, when both points
are present and no screenshot was taken this cycle, derives the rectangle,
invokes the capture and sets the completed-capture flag. -/
def on_click (s : MacroState) (x y : Int) (button : Button) (pressed : Bool) :
    MacroState × Option (Int × Int × Int × Int) :=
  if s.triggered = false then
    (s, none)
  else if pressed = true ∧ button = Button.left then
    ({ s with start_pos := some (x, y) }, none)
  else if pressed = false ∧ button = Button.left then
    let s1 := { s with end_pos := some (x, y) }
    match s1.start_pos, s1.end_pos with
    | some p1, some p2 =>
      let left := min p1.1 p2.1
      let top := min p1.2 p2.2
      let width := |p2.1 - p1.1|
      let height := |p2.2 - p1.2|
      if s1.screenshot_taken = false then
        ({ s1 with screenshot_taken := true }, some (left, top, width, height))
      else
        (s1, none)
    | _, _ => (s1, none)
  else
    (s, none)

/-- on_activate from the source: arms the macro and clears the
completed-capture flag.  It touches no other state. -/
def on_activate (s : MacroState) : MacroState :=
  { s with triggered := true, screenshot_taken := false }

/-- Runs a sequence of mouse events through on_click, collecting every
capture invocation made along the way. -/
def runClicks : MacroState → List ClickEvent → MacroState × List (Int × Int × Int × Int)
  | s, [] => (s, [])
  | s, ev :: evs =>
    let r := on_click s ev.x ev.y ev.button ev.pressed
    let rest := runClicks r.1 evs
    (rest.1, r.2.toList ++ rest.2)

/-- A world in which both extraction oracles succeed. -/
def wTest : World where
  pdfDoc := fun _ => some ["sample page text of the test document".data]
  ocr := fun _ => some "sample ocr text".data

/-- A world in which both extraction oracles fail. -/
def wFail : World where
  pdfDoc := fun _ => none
  ocr := fun _ => none

/-- A world whose only document consists of one line of exactly 20
characters. -/
def w20 : World where
  pdfDoc := fun _ => some ["aaaaaaaaaaaaaaaaaaaa".data]
  ocr := fun _ => none

/-- A world whose document mixes lines above and below the length
threshold. -/
def wMix : World where
  pdfDoc := fun _ => some ["this first line is well over twenty characters\nshort line\n".data,
                           "the third line is also well over twenty characters".data]
  ocr := fun _ => none

/-- The default screenshot output path from the source. -/
def outPath : List Char := "assets/screenshot.png".data

/-- A capture environment whose directory-creation step fails. -/
def badEnv : CaptureEnv where
  makedirs := Except.error "permission denied".data
  screenshot := fun _ _ _ _ => Except.ok ()
  world := wTest

/-- A capture environment whose directory creation succeeds but whose
screenshot call fails. -/
def goodEnvShotFail : CaptureEnv where
  makedirs := Except.ok ()
  screenshot := fun _ _ _ _ => Except.error "denied".data
  world := wTest

/-- A capture environment in which every step succeeds but OCR fails. -/
def envOcrFail : CaptureEnv where
  makedirs := Except.ok ()
  screenshot := fun _ _ _ _ => Except.ok ()
  world := wFail

/-- A capture environment in which every step succeeds and OCR yields
text. -/
def envOcrText : CaptureEnv where
  makedirs := Except.ok ()
  screenshot := fun _ _ _ _ => Except.ok ()
  world := { pdfDoc := fun _ => none, ocr := fun _ => some "THIS IS THE EXTRACTED TEXT".data }

/-- A freshly armed state with no recorded points. -/
def sArm : MacroState where
  start_pos := none
  end_pos := none
  screenshot_taken := false
  triggered := true

/-- An armed state whose capture has already completed this cycle. -/
def sTaken : MacroState where
  start_pos := some (0, 0)
  end_pos := some (5, 5)
  screenshot_taken := true
  triggered := true

/-- An armed state with a recorded drag start point and no capture yet. -/
def sDrag : MacroState where
  start_pos := some (0, 0)
  end_pos := none
  screenshot_taken := false
  triggered := true

theorem splitlinesAux_nil (acc : List Char) :
    splitlinesAux [] acc = if acc.isEmpty then [] else [acc.reverse] := by
  simp [splitlinesAux]

theorem splitlinesAux_newline (rest acc : List Char) :
    splitlinesAux ('\n' :: rest) acc = acc.reverse :: splitlinesAux rest [] := by
  have hb : isLineBreak '\n' = true := rfl
  have hr : ¬ ('\n' = '\r' ∧ rest.head? = some '\n') := by
    rintro ⟨hc, -⟩
    exact absurd hc (by decide)
  simp [splitlinesAux, hb, hr]

theorem splitlinesAux_nobreak (c : Char) (rest acc : List Char)
    (hc : isLineBreak c = false) :
    splitlinesAux (c :: rest) acc = splitlinesAux rest (c :: acc) := by
  simp [splitlinesAux, hc]

theorem splitlinesAux_append (l rest acc : List Char)
    (hl : ∀ c ∈ l, isLineBreak c = false) :
    splitlinesAux (l ++ '\n' :: rest) acc = (acc.reverse ++ l) :: splitlinesAux rest [] := by
  induction l generalizing acc with
  | nil => simpa using splitlinesAux_newline rest acc
  | cons c l ih =>
    have hc : isLineBreak c = false := hl c (List.mem_cons_self c l)
    have hl' : ∀ d ∈ l, isLineBreak d = false := fun d hd => hl d (List.mem_cons_of_mem c hd)
    rw [List.cons_append, splitlinesAux_nobreak c _ acc hc, ih (c :: acc) hl']
    simp

theorem splitlinesAux_nobreak_all (l acc : List Char)
    (hl : ∀ c ∈ l, isLineBreak c = false) :
    splitlinesAux l acc = if (acc.reverse ++ l).isEmpty then [] else [acc.reverse ++ l] := by
  induction l generalizing acc with
  | nil => simp [splitlinesAux_nil]
  | cons c l ih =>
    have hc : isLineBreak c = false := hl c (List.mem_cons_self c l)
    have hl' : ∀ d ∈ l, isLineBreak d = false := fun d hd => hl d (List.mem_cons_of_mem c hd)
    rw [splitlinesAux_nobreak c l acc hc, ih (c :: acc) hl']
    simp

theorem splitlines_pyJoin (ls : List (List Char))
    (h : ∀ l ∈ ls, l ≠ [] ∧ ∀ c ∈ l, isLineBreak c = false) :
    splitlines (pyJoin ['\n'] ls) = ls := by
  induction ls with
  | nil => simp [pyJoin, splitlines, splitlinesAux_nil]
  | cons x ls ih =>
    cases ls with
    | nil =>
      obtain ⟨hx, hxc⟩ := h x (List.mem_cons_self x [])
      show splitlinesAux (pyJoin ['\n'] [x]) [] = [x]
      rw [show pyJoin ['\n'] [x] = x from rfl, splitlinesAux_nobreak_all x [] hxc]
      simp [List.isEmpty_iff, hx]
    | cons y t =>
      obtain ⟨hx, hxc⟩ := h x (List.mem_cons_self x (y :: t))
      have h' : ∀ l ∈ y :: t, l ≠ [] ∧ ∀ c ∈ l, isLineBreak c = false :=
        fun l hl => h l (List.mem_cons_of_mem x hl)
      have hrec := ih h'
      unfold splitlines at hrec
      show splitlinesAux (pyJoin ['\n'] (x :: y :: t)) [] = x :: y :: t
      rw [show pyJoin ['\n'] (x :: y :: t) = x ++ '\n' :: pyJoin ['\n'] (y :: t) by
        simp [pyJoin]]
      rw [splitlinesAux_append x _ [] hxc]
      simp [hrec]

theorem splitlinesAux_lines_nobreak (s acc : List Char) :
    (∀ c ∈ acc, isLineBreak c = false) →
      ∀ l ∈ splitlinesAux s acc, ∀ c ∈ l, isLineBreak c = false := by
  induction s, acc using splitlinesAux.induct with
  | case1 acc hacc =>
    intro h l hl
    rw [splitlinesAux_nil, if_pos hacc] at hl
    exact absurd hl (List.not_mem_nil l)
  | case2 acc hacc =>
    intro h l hl
    rw [splitlinesAux_nil, if_neg hacc] at hl
    rw [List.mem_singleton] at hl
    subst hl
    intro c hc
    exact h c (List.mem_reverse.mp hc)
  | case3 c rest acc hb ih =>
    intro h l hl
    rw [splitlinesAux, if_pos hb] at hl
    rcases List.mem_cons.mp hl with hl | hl
    · subst hl
      intro d hd
      exact h d (List.mem_reverse.mp hd)
    · exact ih (by intro d hd; exact absurd hd (List.not_mem_nil d)) l hl
  | case4 c rest acc hb ih =>
    intro h l hl
    rw [splitlinesAux, if_neg hb] at hl
    refine ih ?_ l hl
    intro d hd
    rcases List.mem_cons.mp hd with hd | hd
    · subst hd; exact Bool.eq_false_iff.mpr hb
    · exact h d hd

theorem splitlines_lines_nobreak (s : List Char) :
    ∀ l ∈ splitlines s, ∀ c ∈ l, isLineBreak c = false :=
  splitlinesAux_lines_nobreak s [] (by intro c hc; exact absurd hc (List.not_mem_nil c))

theorem pySplitAux_no_sep (sep : Char) (s acc : List Char) (h : sep ∉ s) :
    pySplitAux sep s acc = [acc.reverse ++ s] := by
  induction s generalizing acc with
  | nil => simp [pySplitAux]
  | cons c rest ih =>
    have hc : ¬ c = sep := fun e => h (by simp [e])
    have h' : sep ∉ rest := fun hm => h (List.mem_cons_of_mem c hm)
    simp [pySplitAux, hc, ih (c :: acc) h']

theorem fileExtension_no_dot (path : List Char) (h : '.' ∉ path) :
    fileExtension path = pyLower path := by
  unfold fileExtension pySplit
  rw [pySplitAux_no_sep '.' path [] h]
  simp

theorem extract_pdf_branch (w : World) (path : List Char)
    (h : fileExtension path = "pdf".data) :
    Extract.extract w path = Except.ok ((PDFProcessing.extract w path false).1) := by
  unfold Extract.extract
  rw [h, if_neg (by decide), if_pos rfl]
  by_cases he : (PDFProcessing.extract w path false).1 = []
  · rw [if_neg (not_not_intro he), he]
  · rw [if_pos he]

theorem extract_image_branch (w : World) (path : List Char)
    (hmem : fileExtension path ∈ VALID_FILE_EXTENTIONS)
    (hpdf : fileExtension path ≠ "pdf".data) :
    Extract.extract w path = Except.ok ((ImageProcessing.extract w path).1) := by
  unfold Extract.extract
  rw [if_neg (not_not_intro hmem), if_neg hpdf, if_pos hmem]
  by_cases he : (ImageProcessing.extract w path).1 = []
  · rw [if_neg (not_not_intro he), he]
  · rw [if_pos he]

theorem extract_invalid_raises (w : World) (path : List Char)
    (h : fileExtension path ∉ VALID_FILE_EXTENTIONS) :
    Extract.extract w path =
      Except.error ("Unsupported file type: ".data ++ fileExtension path) := by
  unfold Extract.extract
  rw [if_pos h]

theorem on_click_press (s : MacroState) (x y : Int) (h : s.triggered = true) :
    on_click s x y Button.left true = ({ s with start_pos := some (x, y) }, none) := by
  simp [on_click, h]

theorem on_click_release_fire (s : MacroState) (p1 : Int × Int) (x y : Int)
    (h : s.triggered = true) (hs : s.start_pos = some p1) (ht : s.screenshot_taken = false) :
    on_click s x y Button.left false =
      ({ s with end_pos := some (x, y), screenshot_taken := true },
       some (min p1.1 x, min p1.2 y, |x - p1.1|, |y - p1.2|)) := by
  simp [on_click, h, hs, ht]

theorem on_click_drag (s : MacroState) (x1 y1 x2 y2 : Int)
    (h1 : s.triggered = true) (h2 : s.screenshot_taken = false) :
    on_click (on_click s x1 y1 Button.left true).1 x2 y2 Button.left false =
      ({ s with
          start_pos := some (x1, y1)
          end_pos := some (x2, y2)
          screenshot_taken := true },
       some (min x1 x2, min y1 y2, |x2 - x1|, |y2 - y1|)) := by
  rw [on_click_press s x1 y1 h1]
  exact on_click_release_fire _ (x1, y1) x2 y2 h1 rfl h2

theorem on_click_no_fire_of_taken (s : MacroState) (x y : Int) (b : Button) (p : Bool)
    (h : s.screenshot_taken = true) :
    (on_click s x y b p).2 = none ∧ (on_click s x y b p).1.screenshot_taken = true := by
  obtain ⟨sp, ep, st, tr⟩ := s
  simp only at h
  subst h
  cases tr <;> cases p <;> cases b <;> cases sp <;> simp [on_click]

theorem runClicks_no_fire_of_taken (s : MacroState) (evs : List ClickEvent)
    (h : s.screenshot_taken = true) : (runClicks s evs).2 = [] := by
  induction evs generalizing s with
  | nil => rfl
  | cons ev evs ih =>
    have hc := on_click_no_fire_of_taken s ev.x ev.y ev.button ev.pressed h
    simp [runClicks, hc.1, ih _ hc.2]

theorem capture_screenshot_no_raise (env : CaptureEnv) (left top width height : Int)
    (out clip : List Char) (h : env.makedirs = Except.ok ()) :
    ∃ r, capture_screenshot env left top width height out clip = Except.ok r := by
  unfold capture_screenshot
  rw [h]
  cases hs : env.screenshot left top width height with
  | error e => exact ⟨_, rfl⟩
  | ok u =>
    cases hx : Extract.extract env.world out with
    | error e => exact ⟨_, rfl⟩
    | ok text =>
      dsimp only
      by_cases ht : text = []
      · rw [if_neg (not_not_intro ht)]
        exact ⟨_, rfl⟩
      · rw [if_pos ht]
        exact ⟨_, rfl⟩

theorem capture_screenshot_shot_fail (env : CaptureEnv) (left top width height : Int)
    (out clip : List Char) (e : List Char) (h : env.makedirs = Except.ok ())
    (he : env.screenshot left top width height = Except.error e) :
    capture_screenshot env left top width height out clip =
      Except.ok (clip, [LogEntry.error "Error capturing screenshot"]) := by
  unfold capture_screenshot
  rw [h, he]

/-- C1: for every drag handled while the macro is armed and no capture has
fired this cycle, the rectangle passed to the capturer from a left-press at
(x1, y1) followed by a left-release at (x2, y2) has left = min x1 x2,
top = min y1 y2, width = |x2 - x1| and height = |y2 - y1|, for every drag
direction. -/
theorem on_click_rectangle_min_abs (s : MacroState) (x1 y1 x2 y2 : Int)
    (h1 : s.triggered = true) (h2 : s.screenshot_taken = false) :
    (on_click (on_click s x1 y1 Button.left true).1 x2 y2 Button.left false).2 =
      some (min x1 x2, min y1 y2, |x2 - x1|, |y2 - y1|) := by
  rw [on_click_drag s x1 y1 x2 y2 h1 h2]

/-- Witness for C1 at the up-left drag from (5, 6) to (1, 2). -/
theorem on_click_rectangle_min_abs_witness :
    (on_click (on_click sArm 5 6 Button.left true).1 1 2 Button.left false).2 =
      some (1, 2, 4, 4) := by
  rw [on_click_rectangle_min_abs sArm 5 6 1 2 rfl rfl]
  decide

/-- C2 counterexample: the claim says every line of length at least 20 is
kept by the filtered extraction, but the source keeps only lines of length
strictly greater than 20: a document whose single line has exactly 20
characters refutes it. -/
theorem pdf_filter_boundary_counterexample :
    ¬ (∀ (w : World) (path : List Char),
        ∀ line ∈ splitlines (PDFProcessing.extract w path false).1,
          20 ≤ line.length →
            line ∈ splitlines (PDFProcessing.extract w path true).1) := by
  intro hclaim
  have hnb : ∀ c ∈ "aaaaaaaaaaaaaaaaaaaa".data, isLineBreak c = false := by decide
  have hsplit : splitlines "aaaaaaaaaaaaaaaaaaaa".data =
      ["aaaaaaaaaaaaaaaaaaaa".data] := by
    rw [splitlines, splitlinesAux_nobreak_all _ [] hnb]
    simp
  have e1 : (PDFProcessing.extract w20 "doc.pdf".data false).1 =
      "aaaaaaaaaaaaaaaaaaaa".data := rfl
  have e2 : (PDFProcessing.extract w20 "doc.pdf".data true).1 =
      pyJoin ['\n'] ((splitlines "aaaaaaaaaaaaaaaaaaaa".data).filter
        (fun line => 20 < line.length)) := rfl
  have e3 : (PDFProcessing.extract w20 "doc.pdf".data true).1 = [] := by
    rw [e2, hsplit]
    decide
  have h := hclaim w20 "doc.pdf".data "aaaaaaaaaaaaaaaaaaaa".data
    (by rw [e1, hsplit]; exact List.mem_singleton.mpr rfl) (by decide)
  rw [e3] at h
  simp [splitlines, splitlinesAux_nil] at h

/-- C2 amended: extraction with the filter flag enabled removes exactly the
lines of length at most 20: a line is kept precisely when its length
exceeds 20 characters, and the order of the kept lines is preserved. -/
theorem pdf_filter_keeps_long_lines (w : World) (path : List Char)
    (pages : List (List Char)) (h : w.pdfDoc path = some pages) :
    splitlines (PDFProcessing.extract w path true).1 =
      (splitlines (PDFProcessing.extract w path false).1).filter
        (fun line => 20 < line.length) ∧
    (∀ line ∈ splitlines (PDFProcessing.extract w path false).1,
       20 < line.length → line ∈ splitlines (PDFProcessing.extract w path true).1) ∧
    (∀ line ∈ splitlines (PDFProcessing.extract w path true).1, 20 < line.length) ∧
    (splitlines (PDFProcessing.extract w path true).1).Sublist
      (splitlines (PDFProcessing.extract w path false).1) := by
  have e1 : (PDFProcessing.extract w path false).1 =
      pages.foldl (fun acc page => acc ++ page) [] := by
    simp [PDFProcessing.extract, h]
  have e2 : (PDFProcessing.extract w path true).1 =
      pyJoin ['\n']
        ((splitlines (pages.foldl (fun acc page => acc ++ page) [])).filter
          (fun line => 20 < line.length)) := by
    simp [PDFProcessing.extract, h]
  have hcond : ∀ l ∈ (splitlines (pages.foldl (fun acc page => acc ++ page) [])).filter
      (fun line => 20 < line.length),
      l ≠ [] ∧ ∀ c ∈ l, isLineBreak c = false := by
    intro l hlf
    rw [List.mem_filter] at hlf
    obtain ⟨hl, hlen⟩ := hlf
    refine ⟨?_, fun c hc => splitlines_lines_nobreak _ l hl c hc⟩
    intro hnil
    subst hnil
    simp at hlen
  have emain := splitlines_pyJoin _ hcond
  rw [e1, e2, emain]
  refine ⟨rfl, ?_, ?_, List.filter_sublist _⟩
  · intro line hline hlen
    exact List.mem_filter.mpr ⟨hline, by simpa using hlen⟩
  · intro line hline
    simpa using (List.mem_filter.mp hline).2

/-- Witness for C2 amended on a document mixing lines above and below the
threshold. -/
theorem pdf_filter_keeps_long_lines_witness :
    splitlines (PDFProcessing.extract wMix "doc.pdf".data true).1 =
      (splitlines (PDFProcessing.extract wMix "doc.pdf".data false).1).filter
        (fun line => 20 < line.length) :=
  (pdf_filter_keeps_long_lines wMix "doc.pdf".data _ rfl).1

/-- C3: Extract.extract dispatches purely on the case-insensitive extension
suffix: extension pdf routes to the document branch (its result is the PDF
extractor's text), an allow-listed raster extension routes to the image-OCR
branch, and any extension outside the allow-list raises the
unsupported-file-type error. -/
theorem extract_dispatch_by_extension (w : World) (path : List Char) :
    (fileExtension path = "pdf".data →
       Extract.extract w path = Except.ok ((PDFProcessing.extract w path false).1)) ∧
    (fileExtension path ∈ rasterExtensions →
       Extract.extract w path = Except.ok ((ImageProcessing.extract w path).1)) ∧
    (fileExtension path ∉ VALID_FILE_EXTENTIONS →
       Extract.extract w path =
         Except.error ("Unsupported file type: ".data ++ fileExtension path)) := by
  refine ⟨extract_pdf_branch w path, ?_, extract_invalid_raises w path⟩
  intro hr
  simp only [rasterExtensions, List.mem_cons, List.not_mem_nil, or_false] at hr
  have hmem : fileExtension path ∈ VALID_FILE_EXTENTIONS := by
    rcases hr with h | h | h | h | h <;> (rw [h]; decide)
  have hpdf : fileExtension path ≠ "pdf".data := by
    rcases hr with h | h | h | h | h <;> (rw [h]; decide)
  exact extract_image_branch w path hmem hpdf

/-- Witness for C3: report.PDF routes to the document branch, photo.JPG to
the image branch, archive.zip raises the unsupported-file-type error. -/
theorem extract_dispatch_by_extension_witness :
    Extract.extract wTest "report.PDF".data =
      Except.ok ((PDFProcessing.extract wTest "report.PDF".data false).1) ∧
    Extract.extract wTest "photo.JPG".data =
      Except.ok ((ImageProcessing.extract wTest "photo.JPG".data).1) ∧
    Extract.extract wTest "archive.zip".data =
      Except.error ("Unsupported file type: ".data ++ fileExtension "archive.zip".data) :=
  ⟨(extract_dispatch_by_extension wTest "report.PDF".data).1 (by decide),
   (extract_dispatch_by_extension wTest "photo.JPG".data).2.1 (by decide),
   (extract_dispatch_by_extension wTest "archive.zip".data).2.2 (by decide)⟩

/-- C4: once the completed-capture flag is set, no sequence of further
mouse events invokes a capture, and the hotkey activation is what resets
the flag to false. -/
theorem single_capture_per_arm_cycle (s : MacroState) (evs : List ClickEvent)
    (h : s.screenshot_taken = true) :
    (runClicks s evs).2 = [] ∧ (on_activate s).screenshot_taken = false :=
  ⟨runClicks_no_fire_of_taken s evs h, rfl⟩

/-- Witness for C4: after a completed capture, a further release (and even
a further press-release pair) fires nothing. -/
theorem single_capture_per_arm_cycle_witness :
    (runClicks sTaken
      [⟨1, 2, Button.left, false⟩, ⟨3, 4, Button.left, true⟩,
       ⟨7, 8, Button.left, false⟩]).2 = [] ∧
    (on_activate sTaken).screenshot_taken = false :=
  single_capture_per_arm_cycle sTaken _ rfl

/-- C5 counterexample: after a completed arm-press-release capture the
armed flag is still true and the drag start point is still recorded, so
the per-cycle state is not reset as the claim states. -/
theorem state_not_reset_after_capture :
    ((on_click (on_click sArm 0 0 Button.left true).1 5 7 Button.left false).2).isSome
      = true ∧
    (on_click (on_click sArm 0 0 Button.left true).1 5 7 Button.left false).1.triggered
      = true ∧
    (on_click (on_click sArm 0 0 Button.left true).1 5 7 Button.left false).1.start_pos
      = some (0, 0) := by
  decide

/-- C5 amended: once a capture completes, the only per-cycle state change
is setting the completed-capture flag to true: the armed flag and the
recorded drag start point are left unchanged, and it is the flag (reset on
the next hotkey activation) that prevents a further capture. -/
theorem capture_sets_only_taken_flag (s : MacroState) (x y : Int) (b : Button) (p : Bool)
    (h : ((on_click s x y b p).2).isSome = true) :
    (on_click s x y b p).1.triggered = s.triggered ∧
    (on_click s x y b p).1.start_pos = s.start_pos ∧
    (on_click s x y b p).1.screenshot_taken = true := by
  obtain ⟨sp, ep, st, tr⟩ := s
  cases tr <;> cases p <;> cases b <;> cases sp <;> cases st <;>
    simp_all [on_click]

/-- Witness for C5 amended at a concrete capture-completing release. -/
theorem capture_sets_only_taken_flag_witness :
    (on_click sDrag 5 7 Button.left false).1.triggered = sDrag.triggered ∧
    (on_click sDrag 5 7 Button.left false).1.start_pos = sDrag.start_pos ∧
    (on_click sDrag 5 7 Button.left false).1.screenshot_taken = true :=
  capture_sets_only_taken_flag sDrag 5 7 Button.left false (by decide)

/-- C6: when the document cannot be opened or parsed, and when the image
cannot be decoded or OCR fails, the branch extractors log an error and
return the empty string; being total functions into a pair, no exception
escapes to the caller. -/
theorem extractors_soft_fail_empty (w : World) (path : List Char) (filter : Bool)
    (h1 : w.pdfDoc path = none) (h2 : w.ocr path = none) :
    PDFProcessing.extract w path filter =
      ([], [LogEntry.error "Failed to extract text from PDF"]) ∧
    ImageProcessing.extract w path =
      ([], [LogEntry.error "Failed to extract text from image"]) := by
  constructor
  · simp [PDFProcessing.extract, h1]
  · simp [ImageProcessing.extract, h2]

/-- Witness for C6 in the world where both oracles fail. -/
theorem extractors_soft_fail_empty_witness :
    PDFProcessing.extract wFail "doc.pdf".data true =
      ([], [LogEntry.error "Failed to extract text from PDF"]) ∧
    ImageProcessing.extract wFail "doc.pdf".data =
      ([], [LogEntry.error "Failed to extract text from image"]) :=
  extractors_soft_fail_empty wFail "doc.pdf".data true rfl rfl

/-- C7: on empty input text, save_to_txt leaves the file contents unchanged
and save_to_clipboard leaves the clipboard unchanged; each logs a warning
and performs no write. -/
theorem empty_text_sinks_noop (file : Option (List Char)) (clipboard : List Char) :
    save_to_txt [] file = (file, [LogEntry.warning "No text to save to file."]) ∧
    save_to_clipboard [] clipboard =
      (clipboard, [LogEntry.warning "No text to copy to clipboard."]) := by
  constructor <;> simp [save_to_txt, save_to_clipboard]

/-- C8 counterexample: a failure of the directory-creation step, which the
source performs before entering its try block, propagates out of
capture_screenshot instead of being logged and contained. -/
theorem makedirs_failure_propagates :
    capture_screenshot badEnv 0 0 10 10 outPath [] =
      Except.error "permission denied".data := rfl

/-- C8 amended: every failure raised inside capture_screenshot's try block
(screenshot, save, extraction, clipboard copy) is caught: whenever the
directory-creation step succeeds the function returns normally, and a
failing screenshot call yields a logged error with no exception; only a
failure of the directory-creation step, which precedes the try block,
propagates to the caller. -/
theorem capture_failures_inside_try_contained (env : CaptureEnv)
    (left top width height : Int) (out clip : List Char)
    (h : env.makedirs = Except.ok ()) :
    (∃ r, capture_screenshot env left top width height out clip = Except.ok r) ∧
    (∀ e, env.screenshot left top width height = Except.error e →
       capture_screenshot env left top width height out clip =
         Except.ok (clip, [LogEntry.error "Error capturing screenshot"])) :=
  ⟨capture_screenshot_no_raise env left top width height out clip h,
   fun e he => capture_screenshot_shot_fail env left top width height out clip e h he⟩

/-- Witness for C8 amended: with directory creation succeeding and the
screenshot call failing, the capture returns normally with a logged
error. -/
theorem capture_failures_inside_try_contained_witness :
    capture_screenshot goodEnvShotFail 1 2 3 4 outPath [] =
      Except.ok ([], [LogEntry.error "Error capturing screenshot"]) :=
  (capture_failures_inside_try_contained goodEnvShotFail 1 2 3 4 outPath [] rfl).2
    "denied".data rfl

/-- C9 counterexample: a click with press point equal to release point does
invoke the capturer (with a zero-width, zero-height rectangle), and the
capturer does not skip extraction: when the external screenshot call
succeeds on the degenerate region, the result depends on the OCR outcome,
so extraction was attempted. -/
theorem zero_area_click_invokes_capture :
    (on_click (on_click sArm 3 4 Button.left true).1 3 4 Button.left false).2 =
      some (3, 4, 0, 0) ∧
    (capture_screenshot envOcrFail 3 4 0 0 outPath []).toOption.map Prod.fst ≠
      (capture_screenshot envOcrText 3 4 0 0 outPath []).toOption.map Prod.fst := by
  constructor
  · decide
  · decide

/-- C9 amended: a click with press point equal to release point invokes the
capturer with a zero-width, zero-height rectangle; the capturer attempts
the capture anyway, completing without raising whenever directory creation
succeeds, and when the external screenshot call rejects the degenerate
region the failure is logged and extraction is skipped. -/
theorem zero_area_click_behavior (s : MacroState) (x y : Int) (env : CaptureEnv)
    (out clip : List Char) (h1 : s.triggered = true) (h2 : s.screenshot_taken = false)
    (h3 : env.makedirs = Except.ok ()) :
    (on_click (on_click s x y Button.left true).1 x y Button.left false).2 =
      some (x, y, 0, 0) ∧
    (∃ r, capture_screenshot env x y 0 0 out clip = Except.ok r) ∧
    (∀ e, env.screenshot x y 0 0 = Except.error e →
       capture_screenshot env x y 0 0 out clip =
         Except.ok (clip, [LogEntry.error "Error capturing screenshot"])) := by
  refine ⟨?_, capture_screenshot_no_raise env x y 0 0 out clip h3,
    fun e he => capture_screenshot_shot_fail env x y 0 0 out clip e h3 he⟩
  rw [on_click_drag s x y x y h1 h2]
  simp

/-- Witness for C9 amended at the zero-area click (3, 4). -/
theorem zero_area_click_behavior_witness :
    (on_click (on_click sArm 3 4 Button.left true).1 3 4 Button.left false).2 =
      some (3, 4, 0, 0) ∧
    capture_screenshot goodEnvShotFail 3 4 0 0 outPath [] =
      Except.ok ([], [LogEntry.error "Error capturing screenshot"]) := by
  have h := zero_area_click_behavior sArm 3 4 goodEnvShotFail outPath [] rfl rfl rfl
  exact ⟨h.1, h.2.2 "denied".data rfl⟩

/-- C10: for a path with no dot, the whole lowercased path is the
extension, so such a path is rejected with the unsupported-file-type error
unless its lowercased name is itself an allow-listed extension; a file
literally named pdf routes to the document branch. -/
theorem extensionless_path_dispatch (w : World) (path : List Char) (h : '.' ∉ path) :
    fileExtension path = pyLower path ∧
    (pyLower path ∉ VALID_FILE_EXTENTIONS →
       Extract.extract w path =
         Except.error ("Unsupported file type: ".data ++ pyLower path)) ∧
    (pyLower path = "pdf".data →
       Extract.extract w path = Except.ok ((PDFProcessing.extract w path false).1)) := by
  have he := fileExtension_no_dot path h
  refine ⟨he, ?_, ?_⟩
  · intro hnm
    have hx := extract_invalid_raises w path (by rw [he]; exact hnm)
    rwa [he] at hx
  · intro hp
    exact extract_pdf_branch w path (he.trans hp)

/-- Witness for C10: a file literally named pdf routes to the document
branch, and an extensionless readme is rejected. -/
theorem extensionless_path_dispatch_witness :
    Extract.extract wTest "pdf".data =
      Except.ok ((PDFProcessing.extract wTest "pdf".data false).1) ∧
    Extract.extract wTest "readme".data =
      Except.error ("Unsupported file type: ".data ++ pyLower "readme".data) :=
  ⟨(extensionless_path_dispatch wTest "pdf".data (by decide)).2.2 (by decide),
   (extensionless_path_dispatch wTest "readme".data (by decide)).2.1 (by decide)⟩

end ImageToText
